import Mathlib

/-!
Verification of the two optimization routines of `autodiffb.py`:
gradient descent (`gd`, source lines 77–85) and Newton's method
(`newton`, source lines 109–115).

The embedding works over `ℚ` (exact arithmetic).  The differentiation
oracle (`jax.grad` in the source) is the sole external dependency, so it
is a parameter `grad : (ℚ → ℚ) → ℚ → ℚ` of both routines.  The Python
iteration count is an `int`; `range niter` runs `max niter 0` times, so
`niter : ℤ` and the loop iterates `niter.toNat` times.
-/

namespace Autodiffb

/-- One body execution of the `for` loop of `gd` (source lines 83–84):
`x -= df(x)*step` followed by `step *= decay`, acting on the state
`(x, step)`.  The `x` update uses the step size from before the decay,
exactly as in the source where line 83 runs before line 84. -/
def gdUpdate (df : ℚ → ℚ) (decay : ℚ) (s : ℚ × ℚ) : ℚ × ℚ :=
  (s.1 - df s.1 * s.2, s.2 * decay)

/-- The `for i in range(niter)` loop of `gd` (source lines 82–84), as the
`n`-fold application of `gdUpdate` to the state `(x, step)`. -/
def gdState (df : ℚ → ℚ) (decay : ℚ) : ℕ → ℚ × ℚ → ℚ × ℚ
  | 0, s => s
  | n + 1, s => gdState df decay n (gdUpdate df decay s)

/-- `gd(f, x0, step=0.1, decay=0.995, niter=100)` (source lines 77–85):
obtain `df = grad f` once, run the loop on state `(x0, step)`, return the
final `x`.  Defaults are supplied by callers and play no role here. -/
def gd (grad : (ℚ → ℚ) → ℚ → ℚ) (f : ℚ → ℚ) (x0 step decay : ℚ)
    (niter : ℤ) : ℚ :=
  let df := grad f
  (gdState df decay niter.toNat (x0, step)).1

/-- One body execution of the `for` loop of `newton` (source line 114):
`x = x - df(x)/ddf(x)`. -/
def newtonUpdate (df ddf : ℚ → ℚ) (x : ℚ) : ℚ :=
  x - df x / ddf x

/-- The `for i in range(niter)` loop of `newton` (source lines 113–114). -/
def newtonLoop (df ddf : ℚ → ℚ) : ℕ → ℚ → ℚ
  | 0, x => x
  | n + 1, x => newtonLoop df ddf n (newtonUpdate df ddf x)

/-- `newton(f, x0, niter=10)` (source lines 109–115): obtain
`df = grad f` and `ddf = grad df` once, run the loop from `x0`, return
the final `x`. -/
def newton (grad : (ℚ → ℚ) → ℚ → ℚ) (f : ℚ → ℚ) (x0 : ℚ)
    (niter : ℤ) : ℚ :=
  let df := grad f
  let ddf := grad df
  newtonLoop df ddf niter.toNat x0

/-- The recurrence stated by the spec for gradient descent: `x_0 = x0`,
`step_0 = step0`, `x_{k+1} = x_k - df(x_k) * step_k`,
`step_{k+1} = step_k * decay`.  Spec-side definition, written from the
spec's words, to be compared with `gd`. -/
def gdSpecRec (df : ℚ → ℚ) (x0 step0 decay : ℚ) : ℕ → ℚ × ℚ
  | 0 => (x0, step0)
  | k + 1 =>
    let p := gdSpecRec df x0 step0 decay k
    (p.1 - df p.1 * p.2, p.2 * decay)

/-- The recurrence stated by the spec for Newton's method: `x_0 = x0`,
`x_{k+1} = x_k - df(x_k) / ddf(x_k)`.  Spec-side definition. -/
def newtonSpecRec (df ddf : ℚ → ℚ) (x0 : ℚ) : ℕ → ℚ
  | 0 => x0
  | k + 1 => newtonSpecRec df ddf x0 k - df (newtonSpecRec df ddf x0 k) / ddf (newtonSpecRec df ddf x0 k)

/-- The loop of `gd` commutes with one more body execution: running the
loop after one update is the same as one update after the loop. -/
theorem gdState_update_comm (df : ℚ → ℚ) (decay : ℚ) (n : ℕ) (s : ℚ × ℚ) :
    gdState df decay n (gdUpdate df decay s)
      = gdUpdate df decay (gdState df decay n s) := by
  induction n generalizing s with
  | zero => rfl
  | succ n ih =>
      show gdState df decay n (gdUpdate df decay (gdUpdate df decay s)) = _
      rw [ih]
      rfl

/-- The loop of `newton` commutes with one more body execution. -/
theorem newtonLoop_update_comm (df ddf : ℚ → ℚ) (n : ℕ) (x : ℚ) :
    newtonLoop df ddf n (newtonUpdate df ddf x)
      = newtonUpdate df ddf (newtonLoop df ddf n x) := by
  induction n generalizing x with
  | zero => rfl
  | succ n ih =>
      show newtonLoop df ddf n (newtonUpdate df ddf (newtonUpdate df ddf x)) = _
      rw [ih]
      rfl

/-- The loop state of `gd` after `n` iterations is the spec recurrence at
index `n`. -/
theorem gdState_eq_specRec (df : ℚ → ℚ) (x0 step0 decay : ℚ) (n : ℕ) :
    gdState df decay n (x0, step0) = gdSpecRec df x0 step0 decay n := by
  induction n with
  | zero => rfl
  | succ n ih =>
      show gdState df decay n (gdUpdate df decay (x0, step0)) = _
      rw [show gdState df decay n (gdUpdate df decay (x0, step0))
            = gdUpdate df decay (gdState df decay n (x0, step0)) from
          gdState_update_comm df decay n (x0, step0), ih]
      rfl

/-- The loop state of `newton` after `n` iterations is the spec
recurrence at index `n`. -/
theorem newtonLoop_eq_specRec (df ddf : ℚ → ℚ) (x0 : ℚ) (n : ℕ) :
    newtonLoop df ddf n x0 = newtonSpecRec df ddf x0 n := by
  induction n with
  | zero => rfl
  | succ n ih =>
      show newtonLoop df ddf n (newtonUpdate df ddf x0) = _
      rw [newtonLoop_update_comm df ddf n x0, ih]
      rfl

/-- The body of the `gd` loop instrumented with an execution counter:
the same two updates as `gdUpdate`, plus `count + 1`. -/
def gdUpdateCounting (df : ℚ → ℚ) (decay : ℚ) (s : ℚ × ℚ × ℕ) : ℚ × ℚ × ℕ :=
  (s.1 - df s.1 * s.2.1, s.2.1 * decay, s.2.2 + 1)

/-- The `gd` loop instrumented with an execution counter. -/
def gdStateCounting (df : ℚ → ℚ) (decay : ℚ) : ℕ → ℚ × ℚ × ℕ → ℚ × ℚ × ℕ
  | 0, s => s
  | n + 1, s => gdStateCounting df decay n (gdUpdateCounting df decay s)

/-- `gd` instrumented with a loop-body execution counter, started at 0. -/
def gdCounting (grad : (ℚ → ℚ) → ℚ → ℚ) (f : ℚ → ℚ) (x0 step decay : ℚ)
    (niter : ℤ) : ℚ × ℕ :=
  let df := grad f
  let r := gdStateCounting df decay niter.toNat (x0, step, 0)
  (r.1, r.2.2)

/-- The body of the `newton` loop instrumented with an execution
counter. -/
def newtonUpdateCounting (df ddf : ℚ → ℚ) (s : ℚ × ℕ) : ℚ × ℕ :=
  (s.1 - df s.1 / ddf s.1, s.2 + 1)

/-- The `newton` loop instrumented with an execution counter. -/
def newtonLoopCounting (df ddf : ℚ → ℚ) : ℕ → ℚ × ℕ → ℚ × ℕ
  | 0, s => s
  | n + 1, s => newtonLoopCounting df ddf n (newtonUpdateCounting df ddf s)

/-- `newton` instrumented with a loop-body execution counter, started
at 0. -/
def newtonCounting (grad : (ℚ → ℚ) → ℚ → ℚ) (f : ℚ → ℚ) (x0 : ℚ)
    (niter : ℤ) : ℚ × ℕ :=
  let df := grad f
  let ddf := grad df
  newtonLoopCounting df ddf niter.toNat (x0, 0)

/-- The instrumented `gd` loop adds exactly `n` to the counter. -/
theorem gdStateCounting_count (df : ℚ → ℚ) (decay : ℚ) (n : ℕ)
    (s : ℚ × ℚ × ℕ) :
    (gdStateCounting df decay n s).2.2 = s.2.2 + n := by
  induction n generalizing s with
  | zero => rfl
  | succ n ih =>
      show (gdStateCounting df decay n (gdUpdateCounting df decay s)).2.2 = _
      rw [ih]
      show s.2.2 + 1 + n = s.2.2 + (n + 1)
      omega

/-- The instrumented `newton` loop adds exactly `n` to the counter. -/
theorem newtonLoopCounting_count (df ddf : ℚ → ℚ) (n : ℕ) (s : ℚ × ℕ) :
    (newtonLoopCounting df ddf n s).2 = s.2 + n := by
  induction n generalizing s with
  | zero => rfl
  | succ n ih =>
      show (newtonLoopCounting df ddf n (newtonUpdateCounting df ddf s)).2 = _
      rw [ih]
      show s.2 + 1 + n = s.2 + (n + 1)
      omega

/-- The instrumented `gd` loop computes the same `(x, step)` state as
the plain loop and adds `n` to the counter. -/
theorem gdStateCounting_eq (df : ℚ → ℚ) (decay : ℚ) (n : ℕ)
    (x step : ℚ) (c : ℕ) :
    gdStateCounting df decay n (x, step, c)
      = ((gdState df decay n (x, step)).1,
          (gdState df decay n (x, step)).2, c + n) := by
  induction n generalizing x step c with
  | zero => rfl
  | succ n ih =>
      show gdStateCounting df decay n (x - df x * step, step * decay, c + 1)
        = ((gdState df decay n (x - df x * step, step * decay)).1,
            (gdState df decay n (x - df x * step, step * decay)).2, c + (n + 1))
      rw [ih]
      simp only [Prod.mk.injEq]
      exact ⟨trivial, trivial, by omega⟩

/-- The instrumentation does not change the point computed by
`newton`. -/
theorem newtonLoopCounting_fst (df ddf : ℚ → ℚ) (n : ℕ) (x : ℚ) (c : ℕ) :
    (newtonLoopCounting df ddf n (x, c)).1 = newtonLoop df ddf n x := by
  induction n generalizing x c with
  | zero => rfl
  | succ n ih =>
      show (newtonLoopCounting df ddf n (x - df x / ddf x, c + 1)).1 = _
      rw [ih]
      rfl

/-- The step component of the `gd` loop state after `n` iterations is
the initial step times `decay ^ n`. -/
theorem gdState_snd (df : ℚ → ℚ) (decay : ℚ) (n : ℕ) (s : ℚ × ℚ) :
    (gdState df decay n s).2 = s.2 * decay ^ n := by
  induction n generalizing s with
  | zero =>
      show s.2 = s.2 * decay ^ 0
      rw [pow_zero, mul_one]
  | succ n ih =>
      show (gdState df decay n (gdUpdate df decay s)).2 = _
      rw [ih]
      show s.2 * decay * decay ^ n = s.2 * decay ^ (n + 1)
      rw [pow_succ]
      ring

/-- If the first derivative vanishes at `x`, the `gd` loop never leaves
`x`, whatever the step component does. -/
theorem gdState_fixed (df : ℚ → ℚ) (decay : ℚ) (h : df x = 0) (n : ℕ)
    (step : ℚ) :
    (gdState df decay n (x, step)).1 = x := by
  induction n generalizing step with
  | zero => rfl
  | succ n ih =>
      show (gdState df decay n (x - df x * step, step * decay)).1 = x
      rw [h, zero_mul, sub_zero]
      exact ih (step * decay)

/-- If the first derivative vanishes at `x`, the `newton` loop never
leaves `x`. -/
theorem newtonLoop_fixed (df ddf : ℚ → ℚ) (h : df x = 0) (n : ℕ) :
    newtonLoop df ddf n x = x := by
  induction n with
  | zero => rfl
  | succ n ih =>
      show newtonLoop df ddf n (x - df x / ddf x) = x
      rw [h, zero_div, sub_zero]
      exact ih

/-- C1: `gd` computes exactly the spec's recurrence: for every oracle,
objective, initial point, step size, decay and iteration count, with
`df = grad f` obtained once before the loop, `gd` returns `x_niter`
where `x_0 = x0`, `step_0 = step0`, `x_{k+1} = x_k - df(x_k) * step_k`
and `step_{k+1} = step_k * decay`. -/
theorem gd_eq_spec_recurrence (grad : (ℚ → ℚ) → ℚ → ℚ) (f : ℚ → ℚ)
    (x0 step0 decay : ℚ) (niter : ℕ) :
    gd grad f x0 step0 decay (niter : ℤ)
      = (gdSpecRec (grad f) x0 step0 decay niter).1 := by
  show (gdState (grad f) decay (Int.toNat niter) (x0, step0)).1 = _
  rw [Int.toNat_natCast, gdState_eq_specRec]

/-- C2: `newton` computes exactly the spec's recurrence: for every
oracle, objective, initial point and iteration count, with `df = grad f`
and `ddf = grad df` obtained once before the loop, `newton` returns
`x_niter` where `x_0 = x0` and `x_{k+1} = x_k - df(x_k) / ddf(x_k)`. -/
theorem newton_eq_spec_recurrence (grad : (ℚ → ℚ) → ℚ → ℚ) (f : ℚ → ℚ)
    (x0 : ℚ) (niter : ℕ) :
    newton grad f x0 (niter : ℤ)
      = newtonSpecRec (grad f) (grad (grad f)) x0 niter := by
  show newtonLoop (grad f) (grad (grad f)) (Int.toNat niter) x0 = _
  rw [Int.toNat_natCast, newtonLoop_eq_specRec]

/-- C3: for every finite `niter ≥ 0` both routines terminate (they are
total Lean functions) and perform exactly `niter` loop-body executions,
for every oracle, objective, initial point, step and decay: the count
depends only on `niter`. -/
theorem gd_newton_iteration_count (grad : (ℚ → ℚ) → ℚ → ℚ) (f : ℚ → ℚ)
    (x0 step decay : ℚ) (niter : ℤ) (h : 0 ≤ niter) :
    ((gdCounting grad f x0 step decay niter).2 : ℤ) = niter
      ∧ ((newtonCounting grad f x0 niter).2 : ℤ) = niter := by
  constructor
  · show (((gdStateCounting (grad f) decay niter.toNat (x0, step, 0)).2.2 : ℕ) : ℤ) = niter
    rw [gdStateCounting_count]
    simp [Int.toNat_of_nonneg h]
  · show (((newtonLoopCounting (grad f) (grad (grad f)) niter.toNat (x0, 0)).2 : ℕ) : ℤ) = niter
    rw [newtonLoopCounting_count]
    simp [Int.toNat_of_nonneg h]

/-- Witness for C3 at a concrete input: the zero oracle, `niter = 7`. -/
theorem gd_newton_iteration_count_witness :
    (((gdCounting (fun _ y => y) (fun y => y) 1 (1/10) (995/1000) 7).2 : ℤ) = 7
      ∧ ((newtonCounting (fun _ y => y) (fun y => y) 1 7).2 : ℤ) = 7) :=
  gd_newton_iteration_count (fun _ y => y) (fun y => y) 1 (1/10) (995/1000) 7
    (by decide)

/-- C6: in the loop of `gd`, after `i` iterations the step component of
the state — the effective step size used for the next update — equals
`step0 * decay ^ i`, for every derivative, initial step, decay and
`i`. -/
theorem gd_step_closed_form (df : ℚ → ℚ) (x0 step0 decay : ℚ) (i : ℕ) :
    (gdState df decay i (x0, step0)).2 = step0 * decay ^ i :=
  gdState_snd df decay i (x0, step0)

/-- C9: for every `niter ≤ 0`, including negative values, both `gd` and
`newton` execute the loop body zero times and return `x0` unchanged. -/
theorem gd_newton_nonpositive_niter (grad : (ℚ → ℚ) → ℚ → ℚ)
    (f : ℚ → ℚ) (x0 step decay : ℚ) (niter : ℤ) (h : niter ≤ 0) :
    gd grad f x0 step decay niter = x0 ∧ newton grad f x0 niter = x0 := by
  have ht : niter.toNat = 0 := Int.toNat_of_nonpos h
  constructor
  · show (gdState (grad f) decay niter.toNat (x0, step)).1 = x0
    rw [ht]
    rfl
  · show newtonLoop (grad f) (grad (grad f)) niter.toNat x0 = x0
    rw [ht]
    rfl

/-- Witness for C9 at `niter = -3`. -/
theorem gd_newton_nonpositive_niter_witness :
    gd (fun _ y => y) (fun y => y) 7 (1/10) (995/1000) (-3) = 7
      ∧ newton (fun _ y => y) (fun y => y) 7 (-3) = 7 :=
  gd_newton_nonpositive_niter (fun _ y => y) (fun y => y) 7 (1/10)
    (995/1000) (-3) (by decide)

/-- C10: a critical point is a fixed point.  If `df(x0) = 0` then `gd`
returns `x0` for every step, decay and `niter ≥ 0`; and if moreover
`ddf(x0) ≠ 0` then `newton` also returns `x0` for every `niter ≥ 0`. -/
theorem critical_point_fixed (grad : (ℚ → ℚ) → ℚ → ℚ) (f : ℚ → ℚ)
    (x0 step decay : ℚ) (niter : ℤ) (h0 : 0 ≤ niter)
    (hdf : grad f x0 = 0) :
    gd grad f x0 step decay niter = x0
      ∧ (grad (grad f) x0 ≠ 0 → newton grad f x0 niter = x0) := by
  constructor
  · exact gdState_fixed (grad f) decay hdf niter.toNat step
  · intro _
    exact newtonLoop_fixed (grad f) (grad (grad f)) hdf niter.toNat

/-- Witness for C10: the oracle below differentiates `fun y => y * y`
exactly (first derivative `2 * y`, second derivative `2`), `x0 = 0` is a
critical point, and both routines stay there. -/
theorem critical_point_fixed_witness :
    gd (fun g y => if g 1 = 1 then 2 * y else 2) (fun y => y * y) 0
        (1/10) (995/1000) 5 = 0
      ∧ newton (fun g y => if g 1 = 1 then 2 * y else 2) (fun y => y * y)
        0 5 = 0 :=
  let t := critical_point_fixed (fun g y => if g 1 = 1 then 2 * y else 2)
    (fun y => y * y) 0 (1/10) (995/1000) 5 (by norm_num) (by norm_num)
  ⟨t.1, t.2 (by norm_num)⟩

/-- Guarded variant of the `newton` loop (source lines 113–114) over
`Option`: the unguarded division `df(x)/ddf(x)` is the only failure
point of the source (on floats a zero denominator yields `inf`/`nan`),
so this embedding returns `none` as soon as a zero denominator is hit
and propagates it; no other branch can fail. -/
def newtonLoopChecked (df ddf : ℚ → ℚ) : ℕ → ℚ → Option ℚ
  | 0, x => some x
  | n + 1, x =>
    if ddf x = 0 then none
    else newtonLoopChecked df ddf n (newtonUpdate df ddf x)

/-- `newton` built on the guarded loop. -/
def newtonChecked (grad : (ℚ → ℚ) → ℚ → ℚ) (f : ℚ → ℚ) (x0 : ℚ)
    (niter : ℤ) : Option ℚ :=
  let df := grad f
  let ddf := grad df
  newtonLoopChecked df ddf niter.toNat x0

/-- The differentiation oracle instrumented with a call counter: each
`derivative` call (`jax.grad` in the source) returns the derivative
function and bumps the counter. -/
def derivativeCounting (grad : (ℚ → ℚ) → ℚ → ℚ) (f : ℚ → ℚ) (c : ℕ) :
    (ℚ → ℚ) × ℕ :=
  (grad f, c + 1)

/-- `gd` with the counting oracle: the single `jax.grad` call of source
line 80 happens before the loop, and the loop reuses the returned
`df`. -/
def gdOracleCalls (grad : (ℚ → ℚ) → ℚ → ℚ) (f : ℚ → ℚ)
    (x0 step decay : ℚ) (niter : ℤ) : ℚ × ℕ :=
  let dfc := derivativeCounting grad f 0
  ((gdState dfc.1 decay niter.toNat (x0, step)).1, dfc.2)

/-- `newton` with the counting oracle: the two `jax.grad` calls of
source lines 110–111 happen before the loop, and the loop reuses the
returned `df` and `ddf`. -/
def newtonOracleCalls (grad : (ℚ → ℚ) → ℚ → ℚ) (f : ℚ → ℚ) (x0 : ℚ)
    (niter : ℤ) : ℚ × ℕ :=
  let dfc := derivativeCounting grad f 0
  let ddfc := derivativeCounting grad dfc.1 dfc.2
  (newtonLoop dfc.1 ddfc.1 niter.toNat x0, ddfc.2)

/-- C4: for `f(z) = (z - c)^2` with exact derivatives
`df(y) = 2*(y - c)` and `ddf(y) = 2`, `newton` started anywhere returns
`c` for every `niter ≥ 1`: the first update already lands on `c`, and
`c` is a fixed point of the update. -/
theorem newton_exact_on_quadratic (grad : (ℚ → ℚ) → ℚ → ℚ) (c x0 : ℚ)
    (hdf : ∀ y, grad (fun z => (z - c) ^ 2) y = 2 * (y - c))
    (hddf : ∀ y, grad (grad (fun z => (z - c) ^ 2)) y = 2)
    (niter : ℤ) (h : 1 ≤ niter) :
    newton grad (fun z => (z - c) ^ 2) x0 niter = c := by
  have ht : niter.toNat = (niter.toNat - 1) + 1 := by omega
  show newtonLoop (grad (fun z => (z - c) ^ 2))
    (grad (grad (fun z => (z - c) ^ 2))) niter.toNat x0 = c
  rw [ht]
  show newtonLoop _ _ (niter.toNat - 1)
    (newtonUpdate (grad (fun z => (z - c) ^ 2))
      (grad (grad (fun z => (z - c) ^ 2))) x0) = c
  have h1 : newtonUpdate (grad (fun z => (z - c) ^ 2))
      (grad (grad (fun z => (z - c) ^ 2))) x0 = c := by
    unfold newtonUpdate
    rw [hdf, hddf]
    ring
  rw [h1]
  exact newtonLoop_fixed _ _ (by rw [hdf]; ring) _

/-- Witness for C4: an oracle that differentiates `fun z => (z - 3)^2`
exactly; from `x0 = 10`, five iterations of `newton` return `3`. -/
theorem newton_exact_on_quadratic_witness :
    newton (fun g y => if g 4 = 1 then 2 * (y - 3) else 2)
      (fun z => (z - 3) ^ 2) 10 5 = 3 :=
  newton_exact_on_quadratic (fun g y => if g 4 = 1 then 2 * (y - 3) else 2)
    3 10 (by intro y; norm_num) (by intro y; norm_num) 5 (by norm_num)

/-- C5: for `f(z) = z^2` with exact derivative `df(y) = 2*y`, `gd` with
`decay = 1` and any fixed `step` in `[0, 1]` decreases the objective
monotonically: `f` at the point after `i + 1` iterations is at most `f`
at the point after `i` iterations, for every `x0` and every `i`. -/
theorem gd_square_monotone (grad : (ℚ → ℚ) → ℚ → ℚ) (x0 step : ℚ)
    (hdf : ∀ y, grad (fun z => z ^ 2) y = 2 * y)
    (h0 : 0 ≤ step) (h1 : step ≤ 1) (i : ℕ) :
    (gd grad (fun z => z ^ 2) x0 step 1 ((i : ℤ) + 1)) ^ 2
      ≤ (gd grad (fun z => z ^ 2) x0 step 1 (i : ℤ)) ^ 2 := by
  have hcast : ((i : ℤ) + 1).toNat = i + 1 := by omega
  show (gdState (grad (fun z => z ^ 2)) 1 ((i : ℤ) + 1).toNat (x0, step)).1 ^ 2
    ≤ (gdState (grad (fun z => z ^ 2)) 1 (Int.toNat i) (x0, step)).1 ^ 2
  rw [hcast, Int.toNat_natCast]
  rw [show gdState (grad (fun z => z ^ 2)) 1 (i + 1) (x0, step)
        = gdState (grad (fun z => z ^ 2)) 1 i
            (gdUpdate (grad (fun z => z ^ 2)) 1 (x0, step)) from rfl]
  rw [gdState_update_comm]
  set p := gdState (grad (fun z => z ^ 2)) 1 i (x0, step) with hp
  have hstep : p.2 = step := by
    rw [hp, gdState_snd]
    simp
  show (p.1 - grad (fun z => z ^ 2) p.1 * p.2) ^ 2 ≤ p.1 ^ 2
  rw [hdf, hstep]
  nlinarith [mul_nonneg (mul_nonneg (sq_nonneg p.1) h0)
    (sub_nonneg.mpr h1), sq_nonneg p.1]

/-- Witness for C5: `f(z) = z^2`, `x0 = 1`, `step = 1/10`, `decay = 1`,
first iteration. -/
theorem gd_square_monotone_witness :
    (gd (fun _ y => 2 * y) (fun z => z ^ 2) 1 (1/10) 1 ((0 : ℤ) + 1)) ^ 2
      ≤ (gd (fun _ y => 2 * y) (fun z => z ^ 2) 1 (1/10) 1 (0 : ℤ)) ^ 2 := by
  have h := gd_square_monotone (fun _ y => 2 * y) 1 (1/10)
    (fun y => rfl) (by norm_num) (by norm_num) 0
  exact h

/-- C7: in the guarded embedding, whenever the second derivative
vanishes at the start point, the unguarded division makes the very first
iteration fail, and the failure propagates to the final result for every
`niter ≥ 1`: nothing catches it. -/
theorem newton_zero_ddf_fails (grad : (ℚ → ℚ) → ℚ → ℚ) (f : ℚ → ℚ)
    (x0 : ℚ) (hz : grad (grad f) x0 = 0) (niter : ℤ) (h : 1 ≤ niter) :
    newtonChecked grad f x0 niter = none := by
  have ht : niter.toNat = (niter.toNat - 1) + 1 := by omega
  show newtonLoopChecked (grad f) (grad (grad f)) niter.toNat x0 = none
  rw [ht]
  show (if grad (grad f) x0 = 0 then none
    else newtonLoopChecked (grad f) (grad (grad f)) (niter.toNat - 1)
      (newtonUpdate (grad f) (grad (grad f)) x0)) = none
  rw [if_pos hz]

/-- Witness for C7: for `f = id` the oracle below returns the constant
first derivative `1` and the constant second derivative `0`; `newton`
fails from `x0 = 0` with `niter = 2`. -/
theorem newton_zero_ddf_fails_witness :
    newtonChecked (fun g y => if g 0 = 0 then 1 else 0) (fun y => y) 0 2
      = none :=
  newton_zero_ddf_fails (fun g y => if g 0 = 0 then 1 else 0)
    (fun y => y) 0 (by norm_num) 2 (by norm_num)

/-- C8: with the counting oracle, every `gd` invocation makes exactly
one `derivative` call and every `newton` invocation exactly two, both
before the loop and independently of `niter`; the returned derivative
functions are reused for all iterations, so the computed points agree
with `gd` and `newton`. -/
theorem oracle_call_discipline (grad : (ℚ → ℚ) → ℚ → ℚ) (f : ℚ → ℚ)
    (x0 step decay : ℚ) (niter : ℤ) :
    (gdOracleCalls grad f x0 step decay niter).2 = 1
      ∧ (newtonOracleCalls grad f x0 niter).2 = 2
      ∧ (gdOracleCalls grad f x0 step decay niter).1
          = gd grad f x0 step decay niter
      ∧ (newtonOracleCalls grad f x0 niter).1 = newton grad f x0 niter :=
  ⟨rfl, rfl, rfl, rfl⟩

end Autodiffb
